import Mathlib

/-!
Shallow embedding of the algorithmic core of the N1O1 clinical-trials
repository: the `NODynamicsSimulator` class of `simulation_core.py`, the
`StatisticalAnalyzer.half_life_analysis` routine of
`statistical_analysis.py`, and the `batch_simulate` route of
`routes/api_routes.py`.

Modelling conventions:
 * Python floats are modelled as exact rationals (`ℚ`); decimal literals
   such as `0.083` denote the exact rational `83/1000`.
 * `numpy.exp` is an external library function; it is modelled by an
   abstract parameter `rexp : ℚ → ℚ` threaded through the definitions that
   use it.  No verified property depends on the values of `rexp`.
 * `scipy.integrate.solve_ivp` is an external adaptive solver; its output
   is modelled by an abstract `SolOutput` value holding the success flag
   and the three solution arrays, exactly the fields the source reads.
 * The mutable simulator instance is modelled by explicit state passing:
   each method takes and returns a `SimState`.
 * A Python exception raised while building the result `DataFrame`
   (unequal column lengths, a `ValueError` in pandas) is modelled by the
   `Option` result of `simulate`: `none` means the exception propagates.
-/

/-- One entry of the `additional_doses` list: a dict with keys
`time` (hours) and `amount` (mg). -/
structure DoseEvent where
  time : ℚ
  amount : ℚ
deriving DecidableEq, Repr

/-- The `formulation` string parameter; only the two values used by the
source are modelled. -/
inductive Formulation where
  | immediateRelease
  | extendedRelease
deriving DecidableEq, Repr

/-- The arguments of `NODynamicsSimulator.__init__`, with the source's
default values recorded at the one call site that relies on them. -/
structure InitArgs where
  baseline : ℚ
  peak : ℚ
  t_peak : ℚ
  half_life : ℚ
  t_max : ℚ
  points : ℕ
  egfr : ℚ
  rbc_count : ℚ
  dose : ℚ
  additional_doses : List DoseEvent
  formulation : Formulation
deriving DecidableEq, Repr

/-- One row of the result `DataFrame`, in the source's column order. -/
structure ResultRow where
  time_hours : ℚ
  time_minutes : ℚ
  plasma : ℚ
  tissue : ℚ
  rbc : ℚ
  total_body : ℚ
  bioactive : ℚ
  cgmp : ℚ
  vaso : ℚ
deriving DecidableEq, Repr

/-- The mutable state of a `NODynamicsSimulator` instance: the stored
constructor arguments, the derived rate constants `k_clear` and `k_rbc`,
and the result caches that `simulate()` assigns (all `None` after
construction, modelled by `Option`). -/
structure SimState where
  baseline : ℚ
  peak : ℚ
  t_peak : ℚ
  half_life : ℚ
  t_max : ℚ
  points : ℕ
  egfr : ℚ
  rbc_count : ℚ
  dose : ℚ
  additional_doses : List DoseEvent
  formulation : Formulation
  k_clear : ℚ
  k_rbc : ℚ
  t_eval : Option (List ℚ)
  plasma_no2 : Option (List ℚ)
  tissue_no2 : Option (List ℚ)
  rbc_no2 : Option (List ℚ)
  total_body_no2 : Option (List ℚ)
  bioactive_no : Option (List ℚ)
  cgmp_levels : Option (List ℚ)
  vasodilation : Option (List ℚ)
  results_df : Option (List ResultRow)
deriving DecidableEq, Repr

/-- `_renal_clearance_rate`: `0.1 * (egfr / 60.0)`. -/
def renal_clearance_rate (egfr : ℚ) : ℚ :=
  0.1 * (egfr / 60)

/-- `_rbc_scavenging_rate`: base rate `0.02 * (rbc_count / 1.0e6)` scaled
by the hypoxia adjustment `1 - 0.5 * (1 - oxygen_saturation)`.  The Python
default for `oxygen_saturation` is `0.97`; callers of this embedding pass
it explicitly. -/
def rbc_scavenging_rate (rbc_count : ℚ) (oxygen_saturation : ℚ) : ℚ :=
  let base_rate := 0.02 * (rbc_count / 1000000)
  let hypoxia_factor := 1 - oxygen_saturation
  base_rate * (1 - 0.5 * hypoxia_factor)

/-- `NODynamicsSimulator.__init__`.  The source stores every argument on
the instance (a duplicated assignment block is idempotent and folded
here), computes `k_clear` and `k_rbc` (at the default oxygen saturation
`0.97`), and sets the result caches to `None`.  No argument is validated
and no error can be raised: construction always succeeds. -/
def init (a : InitArgs) : SimState :=
  { baseline := a.baseline
    peak := a.peak
    t_peak := a.t_peak
    half_life := a.half_life
    t_max := a.t_max
    points := a.points
    egfr := a.egfr
    rbc_count := a.rbc_count
    dose := a.dose
    additional_doses := a.additional_doses
    formulation := a.formulation
    k_clear := renal_clearance_rate a.egfr
    k_rbc := rbc_scavenging_rate a.rbc_count 0.97
    t_eval := none
    plasma_no2 := none
    tissue_no2 := none
    rbc_no2 := none
    total_body_no2 := none
    bioactive_no := none
    cgmp_levels := none
    vasodilation := none
    results_df := none }

/-- `_dose_input`: accumulates the primary five-minute pulse
(`dose / 0.083` on `[t_IR, t_IR + 0.083)`) and then one pulse per entry of
`additional_doses`, exactly as the source's loop does. -/
def dose_input (t : ℚ) (dose : ℚ) (t_IR : ℚ) (additional_doses : List DoseEvent) : ℚ :=
  let result : ℚ := 0
  let result := if t_IR ≤ t ∧ t < t_IR + 0.083 then result + dose / 0.083 else result
  additional_doses.foldl
    (fun acc d => if d.time ≤ t ∧ t < d.time + 0.083 then acc + d.amount / 0.083 else acc)
    result

/-- `_no2_ode`: the right-hand side of the three-compartment model at time
`t` and state `y = (plasma, tissue, rbc)`.  The primary dose is scaled by
the dissolution factor (`0.3` for extended release), and for the
extended-release formulation a sustained flux `0.7 * dose * exp(-t/2) / 4`
is added while `t < 4`. -/
def no2_ode (rexp : ℚ → ℚ) (s : SimState) (t : ℚ) (y : ℚ × ℚ × ℚ) : ℚ × ℚ × ℚ :=
  let dissolution_factor : ℚ :=
    if s.formulation = Formulation.extendedRelease then 0.3 else 1
  let input_flux := dose_input t (s.dose * dissolution_factor) 0 s.additional_doses
  let k_plasma_to_tissue : ℚ := 0.05
  let k_tissue_to_plasma : ℚ := 0.03
  let k_plasma_to_rbc : ℚ := s.k_rbc * 0.5
  let k_rbc_to_no : ℚ := 0.01
  let plasma_to_tissue := k_plasma_to_tissue * y.1
  let tissue_to_plasma := k_tissue_to_plasma * y.2.1
  let plasma_to_rbc := k_plasma_to_rbc * y.1
  let rbc_to_no := k_rbc_to_no * y.2.2
  let renal_clearance := s.k_clear * y.1
  let input_flux :=
    if s.formulation = Formulation.extendedRelease ∧ t < 4 then
      input_flux + 0.7 * s.dose * rexp (-t / 2) / 4
    else input_flux
  (input_flux + tissue_to_plasma - plasma_to_tissue - plasma_to_rbc - renal_clearance,
   plasma_to_tissue - tissue_to_plasma,
   plasma_to_rbc - rbc_to_no)

/-- Python's builtin `max` over a numpy array, as used by the source
(total on `[]` here; the source never applies it to an empty array on the
paths the claims cover). -/
def pymax : List ℚ → ℚ
  | [] => 0
  | x :: xs => xs.foldl max x

/-- Python's builtin `min` analogue (pandas `idxmin` support). -/
def pymin : List ℚ → ℚ
  | [] => 0
  | x :: xs => xs.foldl min x

/-- `_calculate_cgmp`: `10 * (arr / max(arr))` when `max(arr) > 0`, else
`np.zeros_like(arr)`. -/
def calculate_cgmp (no2_array : List ℚ) : List ℚ :=
  if 0 < pymax no2_array then
    no2_array.map (fun x => 10 * (x / pymax no2_array))
  else
    no2_array.map (fun _ => 0)

/-- `_calculate_vasodilation`: `100 + 50 * (arr / max(arr))` when
`max(arr) > 0`, else `100 * np.ones_like(arr)`. -/
def calculate_vasodilation (cgmp_array : List ℚ) : List ℚ :=
  if 0 < pymax cgmp_array then
    cgmp_array.map (fun x => 100 + 50 * (x / pymax cgmp_array))
  else
    cgmp_array.map (fun _ => 100)

/-- `np.linspace(a, b, n)`: `n` uniformly spaced samples from `a` to `b`,
endpoints included. -/
def linspace (a b : ℚ) (n : ℕ) : List ℚ :=
  (List.range n).map (fun (i : ℕ) => a + (b - a) * (i : ℚ) / ((n : ℚ) - 1))

/-- The fields of a `scipy.integrate.solve_ivp` result that the source
reads: the success flag (never consulted by the source) and the three
state rows of `sol.y`.  On solver failure the rows are truncated to the
grid points actually reached. -/
structure SolOutput where
  success : Bool
  y0 : List ℚ
  y1 : List ℚ
  y2 : List ℚ
deriving DecidableEq, Repr

/-- List lookup with numpy/pandas positional semantics (only ever used
within bounds in the verified statements). -/
def pyget (l : List ℚ) (i : ℕ) : ℚ :=
  l.getD i 0

/-- `NODynamicsSimulator.simulate`, with the solver output abstracted.
The grid is `linspace(0, t_max, points)`; the solution arrays are taken
from `sol` without any check of `sol.success`; the derived columns are
computed; the instance caches are assigned; finally the `DataFrame` is
built, which in pandas raises `ValueError` when the columns have unequal
lengths — modelled by returning `none` (the caches assigned before that
point keep their new values, as in Python). -/
def simulate (s : SimState) (sol : SolOutput) : SimState × Option (List ResultRow) :=
  let t_eval := linspace 0 s.t_max s.points
  let plasma := sol.y0
  let tissue := sol.y1
  let rbc := sol.y2
  let total_body :=
    List.zipWith (· + ·)
      (List.zipWith (· + ·) (plasma.map (fun x => 0.7 * x)) (tissue.map (fun x => 0.2 * x)))
      (rbc.map (fun x => 0.1 * x))
  let bioactive := rbc.map (fun x => 0.5 * x)
  let cgmp := calculate_cgmp bioactive
  let vaso := calculate_vasodilation cgmp
  let s1 : SimState :=
    { s with
      t_eval := some t_eval
      plasma_no2 := some plasma
      tissue_no2 := some tissue
      rbc_no2 := some rbc
      total_body_no2 := some total_body
      bioactive_no := some bioactive
      cgmp_levels := some cgmp
      vasodilation := some vaso }
  let n := t_eval.length
  if plasma.length = n ∧ tissue.length = n ∧ rbc.length = n ∧ total_body.length = n ∧
      bioactive.length = n ∧ cgmp.length = n ∧ vaso.length = n then
    let rows := (List.range n).map (fun i =>
      { time_hours := pyget t_eval i
        time_minutes := pyget t_eval i * 60
        plasma := pyget plasma i
        tissue := pyget tissue i
        rbc := pyget rbc i
        total_body := pyget total_body i
        bioactive := pyget bioactive i
        cgmp := pyget cgmp i
        vaso := pyget vaso i : ResultRow })
    ({ s1 with results_df := some rows }, some rows)
  else
    (s1, none)

/-- `simulate_hypoxia`: stores the current `k_rbc`, installs the hypoxic
rate, runs `simulate`, and restores `k_rbc` — but the restoring
assignment is only reached when `simulate` returns normally; when the
inner call raises (the `none` outcome) the exception propagates and the
hypoxic `k_rbc` stays installed, as in the Python control flow. -/
def simulate_hypoxia (s : SimState) (oxygen_saturation : ℚ) (sol : SolOutput) :
    SimState × Option (List ResultRow) :=
  let original_k_rbc := s.k_rbc
  let s1 := { s with k_rbc := rbc_scavenging_rate s.rbc_count oxygen_saturation }
  let res := simulate s1 sol
  match res with
  | (s2, some rows) => ({ s2 with k_rbc := original_k_rbc }, some rows)
  | (s2, none) => (s2, none)

/-- Python's `list[-1]` / pandas `.iloc[-1]` on a nonempty series. -/
def pylast (l : List ℚ) : ℚ :=
  l.getLastD 0

/-- pandas `Series.idxmax` on a positional index: the first position
holding the maximum value. -/
def idxmax (l : List ℚ) : ℕ :=
  l.indexOf (pymax l)

/-- pandas `Series.idxmin` on a positional index: the first position
holding the minimum value. -/
def idxmin (l : List ℚ) : ℕ :=
  l.indexOf (pymin l)

/-- `StatisticalAnalyzer.half_life_analysis` over a series of
`(time, value)` samples, on the `Time (hours)` path (`time_factor = 1`).
`peak_analysis` contributes the first-argmax index and the peak value;
the rows from the peak onward form `post_peak_data`; with fewer than 3 of
them the function returns `None`; the baseline argument defaults to the
last post-peak value; the row whose value is nearest
`baseline + (peak - baseline) / 2` (first on ties, pandas `idxmin`) gives
the half time, and the elapsed time from the peak row is returned. -/
def half_life_analysis (data : List (ℚ × ℚ)) (baseline? : Option ℚ) : Option ℚ :=
  let values := data.map Prod.snd
  let peak_idx := idxmax values
  let peak_value := pymax values
  let post_peak := data.drop peak_idx
  if post_peak.length < 3 then
    none
  else
    let baseline := baseline?.getD (pylast (post_peak.map Prod.snd))
    let half_value := baseline + (peak_value - baseline) / 2
    let diffs := post_peak.map (fun p => |p.2 - half_value|)
    let half_idx := idxmin diffs
    let half_time := pyget (post_peak.map Prod.fst) half_idx
    let peak_time := pyget (post_peak.map Prod.fst) 0
    some (half_time - peak_time)

/-- The input flux actually fed to the derivative equations by `_no2_ode`:
the pulse train of `_dose_input` evaluated at the dissolution-scaled
primary dose, plus the sustained extended-release term while `t < 4`. -/
def ode_input_flux (rexp : ℚ → ℚ) (s : SimState) (t : ℚ) : ℚ :=
  dose_input t (s.dose * (if s.formulation = Formulation.extendedRelease then 0.3 else 1))
      0 s.additional_doses
  + (if s.formulation = Formulation.extendedRelease ∧ t < 4 then
      0.7 * s.dose * rexp (-t / 2) / 4
    else 0)

/-- Modelled from the spec's wording of claim C5 (refinement target, not
source code): the primary dose contributes `dose / 0.083` on
`[0, 0.083)` unscaled, each additional dose contributes
`amount / 0.083` on its own window, and the extended-release formulation
adds `0.7 * dose * exp(-t/2) / 4` for `t < 4`. -/
def claimed_input_flux (rexp : ℚ → ℚ) (dose : ℚ) (additional_doses : List DoseEvent)
    (formulation : Formulation) (t : ℚ) : ℚ :=
  (if 0 ≤ t ∧ t < 0.083 then dose / 0.083 else 0)
  + (additional_doses.map
      (fun d => if d.time ≤ t ∧ t < d.time + 0.083 then d.amount / 0.083 else 0)).sum
  + (if formulation = Formulation.extendedRelease ∧ t < 4 then
      0.7 * dose * rexp (-t / 2) / 4
    else 0)

/-- The amended reading of claim C5: identical to `claimed_input_flux`
except that the primary pulse carries the dissolution-scaled dose
(`0.3 * dose` for extended release). -/
def amended_input_flux (rexp : ℚ → ℚ) (dose : ℚ) (additional_doses : List DoseEvent)
    (formulation : Formulation) (t : ℚ) : ℚ :=
  (if 0 ≤ t ∧ t < 0.083 then
      dose * (if formulation = Formulation.extendedRelease then 0.3 else 1) / 0.083
    else 0)
  + (additional_doses.map
      (fun d => if d.time ≤ t ∧ t < d.time + 0.083 then d.amount / 0.083 else 0)).sum
  + (if formulation = Formulation.extendedRelease ∧ t < 4 then
      0.7 * dose * rexp (-t / 2) / 4
    else 0)

/-- The four parameter ranges of a `/batch-simulate` request. -/
structure BatchRequest where
  dose_range : List ℚ
  age_range : List ℚ
  weight_range : List ℚ
  baseline_range : List ℚ
deriving DecidableEq, Repr

/-- The constructor arguments `batch_simulate` passes to
`NODynamicsSimulator` for one combination. -/
structure SimCfg where
  baseline : ℚ
  peak : ℚ
  t_peak : ℚ
  half_life : ℚ
  t_max : ℚ
  points : ℕ
  egfr : ℚ
  dose : ℚ
deriving DecidableEq, Repr

/-- Parameter derivation of the `batch_simulate` loop body:
`half_life = (30 + age/10)/60` hours, `peak = baseline + dose/(weight*0.1)`,
`egfr = 90 - 0.5*(age-40)` past age 40, grid fixed at 361 points over 6
hours. -/
def cfgOf (dose age weight baseline : ℚ) : SimCfg :=
  let half_life_minutes := 30 + age / 10
  let half_life_hours := half_life_minutes / 60
  let peak_value := baseline + dose / (weight * 0.1)
  { baseline := baseline
    peak := peak_value
    t_peak := 0.5
    half_life := half_life_hours
    t_max := 6
    points := 361
    egfr := if 40 < age then 90 - 0.5 * (age - 40) else 90
    dose := dose }

/-- One record of `batch_results`. -/
structure BatchRecord where
  dose : ℚ
  age : ℚ
  weight : ℚ
  baseline : ℚ
  peak_concentration : ℚ
  half_life_hours : ℚ
  auc : ℚ
  therapeutic_window : ℚ
deriving DecidableEq, Repr

/-- `np.trapz(y, x)`: trapezoidal integral over consecutive sample
pairs. -/
def trapz (ys xs : List ℚ) : ℚ :=
  let pts := xs.zip ys
  (List.zipWith (fun p q => (q.1 - p.1) * (p.2 + q.2) / 2) pts (pts.drop 1)).sum

/-- The loop body of `batch_simulate` for one `(dose, age, weight,
baseline)` combination; `sim` abstracts `NODynamicsSimulator(...).simulate()`
and yields the `Plasma NO2- (µM)` column.  The therapeutic window is
`100 * |{samples > 1.0}| / |samples|`. -/
def mkRecord (sim : SimCfg → List ℚ) (dose age weight baseline : ℚ) : BatchRecord :=
  let cfg := cfgOf dose age weight baseline
  let plasma := sim cfg
  { dose := dose
    age := age
    weight := weight
    baseline := baseline
    peak_concentration := pymax plasma
    half_life_hours := cfg.half_life
    auc := trapz plasma (linspace 0 6 361)
    therapeutic_window :=
      ((plasma.countP (fun v => decide (1 < v)) : ℚ) / (plasma.length : ℚ)) * 100 }

/-- pandas `df.groupby(key)[val].mean().to_dict()` over the records: one
`(key value, mean)` pair per distinct key value, keys in ascending order
(the pandas `groupby` default `sort=True`). -/
def groupMean (key val : BatchRecord → ℚ) (rs : List BatchRecord) : List (ℚ × ℚ) :=
  ((rs.map key).mergeSort (fun a b => decide (a ≤ b))).dedup.map
    (fun k =>
      (k, ((rs.filter (fun r => decide (key r = k))).map val).sum
        / ((rs.filter (fun r => decide (key r = k))).length : ℚ)))

/-- The summary block of a `/batch-simulate` response: record count, the
three per-axis group-by means, and the top combinations. -/
structure BatchSummary where
  total_simulations : ℕ
  dose_effect : List (ℚ × ℚ)
  age_effect : List (ℚ × ℚ)
  weight_effect : List (ℚ × ℚ)
  optimal_combinations : List BatchRecord
deriving DecidableEq, Repr

/-- A successful `/batch-simulate` response body. -/
structure BatchResponse where
  batch_results : List BatchRecord
  summary : BatchSummary
deriving DecidableEq, Repr

/-- pandas `nlargest(k, 'therapeutic_window')` with the default
`keep='first'` tie policy: the first `k` rows of a stable descending
sort on the column. -/
def nlargestWindow (k : ℕ) (rs : List BatchRecord) : List BatchRecord :=
  (rs.mergeSort (fun x y => decide (y.therapeutic_window ≤ x.therapeutic_window))).take k

/-- The `batch_simulate` route: reject the request when the Cartesian
combination count exceeds 50 before any simulation runs; otherwise run
the four nested loops, producing one record per combination, then build
the summary.  When the record list is empty (some range was empty, so
zero combinations passed the cap check), `pd.DataFrame([])` has no
columns and the first group-by (on the dose column) raises `KeyError`;
the outer `except Exception` handler of the route turns that into an
error response — modelled by the `.error` branch below.  With at least
one record every summary field is computed and the top five records by
therapeutic window are reported. -/
def batch_simulate (sim : SimCfg → List ℚ) (req : BatchRequest) :
    Except String BatchResponse :=
  let total_combinations :=
    req.dose_range.length * req.age_range.length * req.weight_range.length *
      req.baseline_range.length
  if 50 < total_combinations then
    .error ("Batch size too large: " ++ toString total_combinations ++
      " simulations requested, maximum is 50")
  else
    let batch_results :=
      req.dose_range.flatMap (fun dose =>
        req.age_range.flatMap (fun age =>
          req.weight_range.flatMap (fun weight =>
            req.baseline_range.map (fun baseline =>
              mkRecord sim dose age weight baseline))))
    if batch_results.isEmpty then
      .error "KeyError: dose"
    else
      .ok
        { batch_results := batch_results
          summary :=
            { total_simulations := batch_results.length
              dose_effect := groupMean BatchRecord.dose BatchRecord.peak_concentration
                batch_results
              age_effect := groupMean BatchRecord.age BatchRecord.half_life_hours
                batch_results
              weight_effect := groupMean BatchRecord.weight BatchRecord.peak_concentration
                batch_results
              optimal_combinations := nlargestWindow 5 batch_results } }

lemma le_foldl_max (xs : List ℚ) (a : ℚ) : a ≤ xs.foldl max a := by
  induction xs generalizing a with
  | nil => simp
  | cons x xs ih => exact le_trans (le_max_left a x) (ih (max a x))

lemma foldl_max_le_of_mem (xs : List ℚ) (a : ℚ) : ∀ x ∈ xs, x ≤ xs.foldl max a := by
  induction xs generalizing a with
  | nil => simp
  | cons y ys ih =>
      intro x hx
      rcases List.mem_cons.mp hx with rfl | hx
      · exact le_trans (le_max_right a x) (le_foldl_max ys (max a x))
      · exact ih (max a y) x hx

lemma foldl_max_choice (xs : List ℚ) (a : ℚ) :
    xs.foldl max a = a ∨ xs.foldl max a ∈ xs := by
  induction xs generalizing a with
  | nil => exact Or.inl rfl
  | cons y ys ih =>
      rcases ih (max a y) with h | h
      · rcases max_choice a y with hm | hm
        · exact Or.inl (by simpa [hm] using h)
        · exact Or.inr (by simpa [hm] using Or.inl h)
      · exact Or.inr (List.mem_cons_of_mem y h)

lemma pymax_mem (l : List ℚ) (h : l ≠ []) : pymax l ∈ l := by
  cases l with
  | nil => exact absurd rfl h
  | cons x xs =>
      rcases foldl_max_choice xs x with h' | h'
      · simp only [pymax]
        rw [h']
        exact List.mem_cons_self x xs
      · simp only [pymax]
        exact List.mem_cons_of_mem x h'

lemma le_pymax (l : List ℚ) : ∀ x ∈ l, x ≤ pymax l := by
  cases l with
  | nil => simp
  | cons y ys =>
      intro x hx
      rcases List.mem_cons.mp hx with rfl | hx
      · exact le_foldl_max ys x
      · exact foldl_max_le_of_mem ys y x hx

lemma foldl_min_le (xs : List ℚ) (a : ℚ) : xs.foldl min a ≤ a := by
  induction xs generalizing a with
  | nil => simp
  | cons x xs ih => exact le_trans (ih (min a x)) (min_le_left a x)

lemma foldl_min_le_of_mem (xs : List ℚ) (a : ℚ) : ∀ x ∈ xs, xs.foldl min a ≤ x := by
  induction xs generalizing a with
  | nil => simp
  | cons y ys ih =>
      intro x hx
      rcases List.mem_cons.mp hx with rfl | hx
      · exact le_trans (foldl_min_le ys (min a x)) (min_le_right a x)
      · exact ih (min a y) x hx

lemma foldl_min_choice (xs : List ℚ) (a : ℚ) :
    xs.foldl min a = a ∨ xs.foldl min a ∈ xs := by
  induction xs generalizing a with
  | nil => exact Or.inl rfl
  | cons y ys ih =>
      rcases ih (min a y) with h | h
      · rcases min_choice a y with hm | hm
        · exact Or.inl (by simpa [hm] using h)
        · exact Or.inr (by simpa [hm] using Or.inl h)
      · exact Or.inr (List.mem_cons_of_mem y h)

lemma pymin_mem (l : List ℚ) (h : l ≠ []) : pymin l ∈ l := by
  cases l with
  | nil => exact absurd rfl h
  | cons x xs =>
      rcases foldl_min_choice xs x with h' | h'
      · simp only [pymin]
        rw [h']
        exact List.mem_cons_self x xs
      · simp only [pymin]
        exact List.mem_cons_of_mem x h'

lemma pymin_le (l : List ℚ) : ∀ x ∈ l, pymin l ≤ x := by
  cases l with
  | nil => simp
  | cons y ys =>
      intro x hx
      rcases List.mem_cons.mp hx with rfl | hx
      · exact foldl_min_le ys x
      · exact foldl_min_le_of_mem ys y x hx

lemma foldl_max_map (f : ℚ → ℚ) (hf : ∀ u v : ℚ, f (max u v) = max (f u) (f v))
    (xs : List ℚ) : ∀ a : ℚ, (xs.map f).foldl max (f a) = f (xs.foldl max a) := by
  induction xs with
  | nil => intro a; simp
  | cons y ys ih =>
      intro a
      simp only [List.map_cons, List.foldl_cons, ← hf a y]
      exact ih (max a y)

lemma pymax_map (f : ℚ → ℚ) (hf : ∀ u v : ℚ, f (max u v) = max (f u) (f v))
    (l : List ℚ) (h : l ≠ []) : pymax (l.map f) = f (pymax l) := by
  cases l with
  | nil => exact absurd rfl h
  | cons x xs => exact foldl_max_map f hf xs x

lemma indexOf_spec (a : ℚ) (l : List ℚ) (h : a ∈ l) :
    l.indexOf a < l.length ∧ l.getD (l.indexOf a) 0 = a ∧
      ∀ i < l.indexOf a, l.getD i 0 ≠ a := by
  induction l with
  | nil => simp at h
  | cons b t ih =>
      by_cases hb : b = a
      · subst hb
        have hidx : (b :: t).indexOf b = 0 := by
          simp [List.indexOf_cons]
        refine ⟨by simp [hidx], by simp [hidx], ?_⟩
        intro i hi
        simp [hidx] at hi
      · have hbeq : (b == a) = false := beq_eq_false_iff_ne.mpr hb
        have hidx : (b :: t).indexOf a = t.indexOf a + 1 := by
          simp [List.indexOf_cons, hbeq]
        have hat : a ∈ t := by
          rcases List.mem_cons.mp h with rfl | hh
          · exact absurd rfl hb
          · exact hh
        obtain ⟨h1, h2, h3⟩ := ih hat
        refine ⟨by simpa [hidx, List.length_cons] using Nat.succ_lt_succ h1,
          by simpa [hidx] using h2, ?_⟩
        intro i hi
        rw [hidx] at hi
        cases i with
        | zero => simpa using hb
        | succ j => simpa using h3 j (Nat.lt_of_succ_lt_succ hi)

lemma foldl_dose_sum (t : ℚ) (adds : List DoseEvent) (acc : ℚ) :
    adds.foldl
        (fun acc d => if d.time ≤ t ∧ t < d.time + 0.083 then acc + d.amount / 0.083 else acc)
        acc
      = acc + (adds.map
          (fun d => if d.time ≤ t ∧ t < d.time + 0.083 then d.amount / 0.083 else 0)).sum := by
  induction adds generalizing acc with
  | nil => simp
  | cons d ds ih =>
      simp only [List.foldl_cons, List.map_cons, List.sum_cons]
      by_cases hd : d.time ≤ t ∧ t < d.time + 0.083
      · rw [if_pos hd, if_pos hd, ih]; ring
      · rw [if_neg hd, if_neg hd, ih]; ring

lemma dose_input_eq (t dose t_IR : ℚ) (adds : List DoseEvent) :
    dose_input t dose t_IR adds =
      (if t_IR ≤ t ∧ t < t_IR + 0.083 then dose / 0.083 else 0)
        + (adds.map
            (fun d => if d.time ≤ t ∧ t < d.time + 0.083 then d.amount / 0.083 else 0)).sum := by
  unfold dose_input
  rw [foldl_dose_sum]
  by_cases h : t_IR ≤ t ∧ t < t_IR + 0.083
  · simp only [if_pos h]
    ring
  · simp only [if_neg h]

lemma mul_div_max (k M : ℚ) (hk : 0 ≤ k) (hM : 0 < M) (u v : ℚ) :
    k * (max u v / M) = max (k * (u / M)) (k * (v / M)) := by
  have hmono : Monotone (fun x : ℚ => k * (x / M)) := by
    intro x y hxy
    dsimp only
    gcongr
  exact hmono.map_max

lemma add_mul_div_max (c k M : ℚ) (hk : 0 ≤ k) (hM : 0 < M) (u v : ℚ) :
    c + k * (max u v / M) = max (c + k * (u / M)) (c + k * (v / M)) := by
  have hmono : Monotone (fun x : ℚ => c + k * (x / M)) := by
    intro x y hxy
    dsimp only
    gcongr
  exact hmono.map_max

lemma cgmp_eq_map (arr : List ℚ) (hM : 0 < pymax arr) :
    calculate_cgmp arr = arr.map (fun x => 10 * (x / pymax arr)) := by
  unfold calculate_cgmp
  rw [if_pos hM]

lemma cgmp_max_eq_ten (arr : List ℚ) (hne : arr ≠ []) (hM : 0 < pymax arr) :
    pymax (calculate_cgmp arr) = 10 := by
  rw [cgmp_eq_map arr hM,
    pymax_map _ (mul_div_max 10 (pymax arr) (by norm_num) hM) arr hne,
    div_self (ne_of_gt hM), mul_one]

lemma vaso_max_eq (arr : List ℚ) (hne : arr ≠ []) (hM : 0 < pymax arr) :
    pymax (calculate_vasodilation (calculate_cgmp arr)) = 150 := by
  have hcgne : calculate_cgmp arr ≠ [] := by
    rw [cgmp_eq_map arr hM]
    simpa using hne
  have hMcg : 0 < pymax (calculate_cgmp arr) := by
    rw [cgmp_max_eq_ten arr hne hM]; norm_num
  unfold calculate_vasodilation
  rw [if_pos hMcg,
    pymax_map _ (add_mul_div_max 100 50 (pymax (calculate_cgmp arr)) (by norm_num) hMcg)
      (calculate_cgmp arr) hcgne,
    div_self (ne_of_gt hMcg)]
  norm_num

/-- C10: whenever the bioactive-NO input series has a strictly positive
maximum, the cGMP series produced by `_calculate_cgmp` has maximum
exactly 10 and the vasodilation series produced by
`_calculate_vasodilation` has maximum exactly 150, independently of the
input's scale; and for every elementwise non-negative input series, all
vasodilation values lie in `[100, 150]`. -/
theorem normalization_erases_scale (arr : List ℚ) :
    (arr ≠ [] → 0 < pymax arr →
      pymax (calculate_cgmp arr) = 10 ∧
      pymax (calculate_vasodilation (calculate_cgmp arr)) = 150) ∧
    ((∀ x ∈ arr, 0 ≤ x) →
      ∀ v ∈ calculate_vasodilation (calculate_cgmp arr), 100 ≤ v ∧ v ≤ 150) := by
  constructor
  · intro hne hM
    exact ⟨cgmp_max_eq_ten arr hne hM, vaso_max_eq arr hne hM⟩
  · intro hpos v hv
    by_cases hM : 0 < pymax arr
    · have hne : arr ≠ [] := by
        rintro rfl
        simp [pymax] at hM
      have hcgne : calculate_cgmp arr ≠ [] := by
        rw [cgmp_eq_map arr hM]
        simpa using hne
      have hMcg : 0 < pymax (calculate_cgmp arr) := by
        rw [cgmp_max_eq_ten arr hne hM]; norm_num
      rw [calculate_vasodilation, if_pos hMcg, cgmp_max_eq_ten arr hne hM] at hv
      obtain ⟨c, hc, rfl⟩ := List.mem_map.mp hv
      rw [cgmp_eq_map arr hM] at hc
      obtain ⟨x, hx, rfl⟩ := List.mem_map.mp hc
      have hx0 : 0 ≤ x := hpos x hx
      have hxM : x ≤ pymax arr := le_pymax arr x hx
      have hc0 : 0 ≤ 10 * (x / pymax arr) :=
        mul_nonneg (by norm_num) (div_nonneg hx0 (le_of_lt hM))
      have hc10 : 10 * (x / pymax arr) ≤ 10 := by
        have h1 : x / pymax arr ≤ 1 := (div_le_one hM).mpr hxM
        nlinarith
      constructor <;> [linarith; linarith]
    · rw [calculate_cgmp, if_neg hM] at hv
      cases arr with
      | nil => simp [calculate_vasodilation, pymax] at hv
      | cons a as =>
          have hz : pymax ((a :: as).map (fun _ => (0 : ℚ))) = 0 := by
            rw [pymax_map (fun _ => (0 : ℚ)) (fun u v => by simp) (a :: as) (by simp)]
          rw [calculate_vasodilation, hz, if_neg (lt_irrefl 0)] at hv
          obtain ⟨c, hc, rfl⟩ := List.mem_map.mp hv
          norm_num

/-- C10 witness: on the concrete series `[1, 2]` the cGMP maximum is 10,
the vasodilation maximum is 150, and the vasodilation value 150 lies in
`[100, 150]`. -/
theorem normalization_erases_scale_witness :
    (pymax (calculate_cgmp [1, 2]) = 10 ∧
      pymax (calculate_vasodilation (calculate_cgmp [1, 2])) = 150) ∧
    (100 ≤ (150 : ℚ) ∧ (150 : ℚ) ≤ 150) := by
  refine ⟨(normalization_erases_scale [1, 2]).1 (by decide) (by decide), ?_⟩
  have hlist : calculate_vasodilation (calculate_cgmp [1, 2]) = [125, 150] := by
    norm_num [calculate_vasodilation, calculate_cgmp, pymax]
  refine (normalization_erases_scale [1, 2]).2 (by decide) 150 ?_
  rw [hlist]
  exact List.mem_cons_of_mem 125 (List.mem_cons_self 150 [])

/-- C6: on every nonempty input array whose maximum is not strictly
positive, `_calculate_cgmp` returns the all-zero vector and
`_calculate_vasodilation` returns the constant all-100 vector; both are
total on this degenerate branch (no division occurs, so no NaN and no
exception). -/
theorem zero_max_guard (arr : List ℚ) (hne : arr ≠ []) (hmax : pymax arr ≤ 0) :
    calculate_cgmp arr = arr.map (fun _ => 0) ∧
    calculate_vasodilation arr = arr.map (fun _ => 100) := by
  constructor
  · rw [calculate_cgmp, if_neg (not_lt.mpr hmax)]
  · rw [calculate_vasodilation, if_neg (not_lt.mpr hmax)]

/-- C6 witness: the concrete array `[0, -1]` has maximum 0; cGMP is
`[0, 0]` and vasodilation is `[100, 100]`. -/
theorem zero_max_guard_witness :
    calculate_cgmp [0, -1] = [0, -1].map (fun _ => 0) ∧
    calculate_vasodilation [0, -1] = [0, -1].map (fun _ => 100) :=
  zero_max_guard [0, -1] (by decide) (by decide)

/-- C2 (evidence for a code bug): `__init__` performs no validation at
all.  It stores every argument unchanged and always builds a simulator
state, in particular for `t_max = -1`, `points = 1`, `dose = -5` and
`baseline = -0.1`; no `ValidationError` exists on this path (the embedded
constructor is total). -/
theorem init_no_validation :
    (∀ a : InitArgs, (init a).t_max = a.t_max ∧ (init a).points = a.points ∧
      (init a).dose = a.dose ∧ (init a).baseline = a.baseline) ∧
    (init
        { baseline := -0.1
          peak := 4
          t_peak := 0.5
          half_life := 0.5
          t_max := -1
          points := 1
          egfr := 90
          rbc_count := 4500000
          dose := -5
          additional_doses := []
          formulation := Formulation.immediateRelease }).t_max
      = -1 :=
  ⟨fun _ => ⟨rfl, rfl, rfl, rfl⟩, rfl⟩

/-- C4: the derivative returned by `_no2_ode` is exactly
`dPlasma = input_flux + 0.03*tissue - 0.05*plasma - (k_rbc*0.5)*plasma - k_clear*plasma`,
`dTissue = 0.05*plasma - 0.03*tissue`, `dRBC = (k_rbc*0.5)*plasma - 0.01*rbc`;
the constructor sets `k_clear` from `_renal_clearance_rate` (proportional
to `egfr/60` with constant `0.1`) and `k_rbc` from `_rbc_scavenging_rate`
at the default saturation `0.97`; and the scavenging rate is
`base_rate * (1 - 0.5*(1 - SpO2))` with `base_rate = 0.02 * (rbc_count/1e6)`
proportional to the RBC count.  Renal clearance appears only in the
plasma equation. -/
theorem ode_rhs_equations (rexp : ℚ → ℚ) (s : SimState) (t : ℚ) (y : ℚ × ℚ × ℚ) :
    no2_ode rexp s t y =
      (ode_input_flux rexp s t + 0.03 * y.2.1 - 0.05 * y.1 - s.k_rbc * 0.5 * y.1
          - s.k_clear * y.1,
       0.05 * y.1 - 0.03 * y.2.1,
       s.k_rbc * 0.5 * y.1 - 0.01 * y.2.2) ∧
    (∀ a : InitArgs, (init a).k_clear = renal_clearance_rate a.egfr ∧
      (init a).k_rbc = rbc_scavenging_rate a.rbc_count 0.97) ∧
    (∀ e : ℚ, renal_clearance_rate e = 0.1 * (e / 60)) ∧
    (∀ rbc o : ℚ, rbc_scavenging_rate rbc o =
      (0.02 * (rbc / 1000000)) * (1 - 0.5 * (1 - o))) := by
  refine ⟨?_, fun _ => ⟨rfl, rfl⟩, fun _ => rfl, fun _ _ => rfl⟩
  simp only [no2_ode, ode_input_flux]
  by_cases h : s.formulation = Formulation.extendedRelease ∧ t < 4
  · simp only [if_pos h]
  · simp only [if_neg h, add_zero]

/-- C5 counterexample: for the extended-release formulation the claimed
flux formula fails, because the source scales the primary bolus by the
dissolution factor 0.3.  Concretely, with `dose = 30`, no additional
doses, extended release, at `t = 0` (and any model of `exp`; the constant
function 1 is used), the plasma derivative at the zero state is
`0.3*30/0.083 + 0.7*30/4`, not the claimed `30/0.083 + 0.7*30/4`. -/
theorem dose_flux_claim_counterexample :
    (no2_ode (fun _ => 1)
        (init
          { baseline := 0.2
            peak := 4
            t_peak := 0.5
            half_life := 0.5
            t_max := 6
            points := 360
            egfr := 90
            rbc_count := 4500000
            dose := 30
            additional_doses := []
            formulation := Formulation.extendedRelease })
        0 (0, 0, 0)).1
      ≠ claimed_input_flux (fun _ => 1) 30 [] Formulation.extendedRelease 0 := by
  norm_num [no2_ode, claimed_input_flux, dose_input, init]

/-- C5 amended: the total dose-input flux entering the plasma equation is
the primary pulse `(dose * dissolution_factor) / 0.083` on `[0, 0.083)`
(dissolution factor 0.3 for extended release, 1 otherwise), plus
`amount / 0.083` for each additional dose over its own window
`[time, time + 0.083)`, plus — for the extended-release formulation — the
sustained flux `0.7 * dose * exp(-t/2) / 4` for all `t < 4`. -/
theorem dose_flux_amended (rexp : ℚ → ℚ) (s : SimState) (t : ℚ) (y : ℚ × ℚ × ℚ) :
    (no2_ode rexp s t y).1 =
      amended_input_flux rexp s.dose s.additional_doses s.formulation t
        + 0.03 * y.2.1 - 0.05 * y.1 - s.k_rbc * 0.5 * y.1 - s.k_clear * y.1 := by
  simp only [no2_ode, amended_input_flux]
  rw [dose_input_eq]
  have hw : (0 : ℚ) + 0.083 = 0.083 := by norm_num
  rw [hw]
  by_cases h : s.formulation = Formulation.extendedRelease ∧ t < 4
  · simp only [if_pos h]
  · simp only [if_neg h]
    ring

lemma linspace_length (a b : ℚ) (n : ℕ) : (linspace a b n).length = n := by
  simp [linspace]

lemma linspace_pairwise (a b : ℚ) (hab : a < b) (n : ℕ) (hn : 2 ≤ n) :
    (linspace a b n).Pairwise (· < ·) := by
  unfold linspace
  refine List.Pairwise.map _ ?_ (List.pairwise_lt_range n)
  intro i j hij
  have hd : (0 : ℚ) < (n : ℚ) - 1 := by
    have h2 : (2 : ℚ) ≤ (n : ℚ) := by exact_mod_cast hn
    linarith
  have hba : (0 : ℚ) < b - a := by linarith
  have hij' : (i : ℚ) < (j : ℚ) := by exact_mod_cast hij
  gcongr

lemma linspace_head (a b : ℚ) (n : ℕ) (hn : 1 ≤ n) :
    (linspace a b n).head? = some a := by
  unfold linspace
  rw [List.head?_map, List.head?_range, if_neg (by omega)]
  norm_num

lemma linspace_getLast (a b : ℚ) (n : ℕ) (hn : 2 ≤ n) :
    (linspace a b n).getLast? = some b := by
  unfold linspace
  rw [List.getLast?_map]
  obtain ⟨m, rfl⟩ : ∃ m, n = m + 1 := ⟨n - 1, by omega⟩
  rw [List.range_succ, List.getLast?_concat]
  have hm : (m : ℚ) ≠ 0 := by
    have : 1 ≤ m := by omega
    exact_mod_cast Nat.cast_ne_zero.mpr (by omega)
  push_cast
  rw [add_sub_cancel_right]
  simp only [Option.map_some']
  rw [mul_div_assoc, div_self hm, mul_one]
  exact congrArg some (by ring)

lemma calculate_cgmp_length (l : List ℚ) : (calculate_cgmp l).length = l.length := by
  unfold calculate_cgmp
  split <;> simp

lemma calculate_vasodilation_length (l : List ℚ) :
    (calculate_vasodilation l).length = l.length := by
  unfold calculate_vasodilation
  split <;> simp

lemma map_getD_range (l : List ℚ) :
    (List.range l.length).map (fun i => l.getD i 0) = l := by
  apply List.ext_getElem
  · simp
  · intro i h1 h2
    rw [List.getElem_map, List.getElem_range, List.getD_eq_getElem _ _ h2]

lemma rows_time_col (T plasma tissue rbc total bio cg va : List ℚ) :
    ((List.range T.length).map (fun i =>
      { time_hours := pyget T i
        time_minutes := pyget T i * 60
        plasma := pyget plasma i
        tissue := pyget tissue i
        rbc := pyget rbc i
        total_body := pyget total i
        bioactive := pyget bio i
        cgmp := pyget cg i
        vaso := pyget va i : ResultRow })).map ResultRow.time_hours = T := by
  rw [List.map_map]
  exact map_getD_range T

/-- C3: for every valid parameter set (`t_max > 0`, `points ≥ 2`) and
every solver output covering the full grid, `simulate` returns a table of
exactly `points` rows whose time-in-hours column is the uniform grid
`linspace 0 t_max points`: strictly increasing, starting at 0 and ending
at `t_max`. -/
theorem simulate_grid (a : InitArgs) (sol : SolOutput)
    (ht : 0 < a.t_max) (hp : 2 ≤ a.points)
    (h0 : sol.y0.length = a.points) (h1 : sol.y1.length = a.points)
    (h2 : sol.y2.length = a.points) :
    ∃ tbl : List ResultRow, (simulate (init a) sol).2 = some tbl ∧
      tbl.length = a.points ∧
      tbl.map ResultRow.time_hours = linspace 0 a.t_max a.points ∧
      (tbl.map ResultRow.time_hours).Pairwise (· < ·) ∧
      (tbl.map ResultRow.time_hours).head? = some 0 ∧
      (tbl.map ResultRow.time_hours).getLast? = some a.t_max := by
  simp only [simulate, init]
  split
  next hcond =>
    refine ⟨_, rfl, ?_, ?_, ?_, ?_, ?_⟩
    · simp [linspace_length]
    · rw [rows_time_col]
    · rw [rows_time_col]
      exact linspace_pairwise 0 a.t_max ht a.points hp
    · rw [rows_time_col]
      exact linspace_head 0 a.t_max a.points (by omega)
    · rw [rows_time_col]
      exact linspace_getLast 0 a.t_max a.points hp
  next hcond =>
    exact absurd
      ⟨by simp [linspace_length, h0],
        by simp [linspace_length, h1],
        by simp [linspace_length, h2],
        by simp [linspace_length, List.length_zipWith, List.length_map, h0, h1, h2],
        by simp [linspace_length, List.length_map, h2],
        by simp [linspace_length, calculate_cgmp_length, List.length_map, h2],
        by simp [linspace_length, calculate_vasodilation_length, calculate_cgmp_length,
          List.length_map, h2]⟩
      hcond

/-- C3 witness: with `t_max = 1`, `points = 3` and a full 3-sample solver
output, `simulate` yields a 3-row table over the grid `[0, 1/2, 1]`. -/
theorem simulate_grid_witness :
    ∃ tbl : List ResultRow,
      (simulate
          (init
            { baseline := 0.2
              peak := 4
              t_peak := 0.5
              half_life := 0.5
              t_max := 1
              points := 3
              egfr := 90
              rbc_count := 4500000
              dose := 30
              additional_doses := []
              formulation := Formulation.immediateRelease })
          { success := true
            y0 := [0.2, 0.3, 0.4]
            y1 := [0.1, 0.1, 0.1]
            y2 := [0.04, 0.05, 0.06] }).2 = some tbl ∧
      tbl.length = 3 ∧
      tbl.map ResultRow.time_hours = linspace 0 1 3 ∧
      (tbl.map ResultRow.time_hours).Pairwise (· < ·) ∧
      (tbl.map ResultRow.time_hours).head? = some 0 ∧
      (tbl.map ResultRow.time_hours).getLast? = some 1 :=
  simulate_grid _ _ (by norm_num) (by norm_num) (by simp) (by simp) (by simp)

/-- C1 (evidence for a code bug): `simulate` never consults the solver's
success flag — its result is identical for `success = false` and
`success = true` — and on a non-converged output whose arrays are
truncated (3 of the 5 requested grid points) it does not raise any
`NumericalError`: the attempted `DataFrame` construction fails on the
unequal column lengths (the untyped pandas `ValueError`, modelled by
`none`). -/
theorem solver_status_ignored :
    (∀ (s : SimState) (sol : SolOutput) (b : Bool),
        simulate s { sol with success := b } = simulate s sol) ∧
    (simulate
        (init
          { baseline := 0.2
            peak := 4
            t_peak := 0.5
            half_life := 0.5
            t_max := 1
            points := 5
            egfr := 90
            rbc_count := 4500000
            dose := 30
            additional_doses := []
            formulation := Formulation.immediateRelease })
        { success := false
          y0 := [0.2, 0.3, 0.4]
          y1 := [0.1, 0.1, 0.1]
          y2 := [0.04, 0.05, 0.06] }).2 = none :=
  ⟨fun _ _ _ => rfl, by decide⟩

/-- C8 counterexample: when the inner `simulate()` raises (here: a
non-converged solver output with truncated arrays, so the `DataFrame`
construction fails), the restoring assignment in `simulate_hypoxia` is
never reached and the hypoxic `k_rbc` (for SpO2 = 0.8) remains installed:
the stored `k_rbc` after the call differs from its value before the
call. -/
theorem hypoxia_leak_counterexample :
    (simulate_hypoxia
        (init
          { baseline := 0.2
            peak := 4
            t_peak := 0.5
            half_life := 0.5
            t_max := 1
            points := 5
            egfr := 90
            rbc_count := 4500000
            dose := 30
            additional_doses := []
            formulation := Formulation.immediateRelease })
        0.8
        { success := false
          y0 := [0.2, 0.3, 0.4]
          y1 := [0.1, 0.1, 0.1]
          y2 := [0.04, 0.05, 0.06] }).1.k_rbc
      ≠ (init
          { baseline := 0.2
            peak := 4
            t_peak := 0.5
            half_life := 0.5
            t_max := 1
            points := 5
            egfr := 90
            rbc_count := 4500000
            dose := 30
            additional_doses := []
            formulation := Formulation.immediateRelease }).k_rbc := by
  simp only [simulate_hypoxia, simulate, init]
  norm_num [linspace, rbc_scavenging_rate]

/-- C8 amended: `simulate_hypoxia` restores the stored `k_rbc` to its
pre-call value whenever the inner `simulate()` completes normally
(returns a result table); only when `simulate()` raises does the hypoxic
rate leak. -/
theorem hypoxia_restores_k_rbc (s : SimState) (o : ℚ) (sol : SolOutput)
    (h : ((simulate_hypoxia s o sol).2).isSome = true) :
    (simulate_hypoxia s o sol).1.k_rbc = s.k_rbc := by
  rcases hres : simulate { s with k_rbc := rbc_scavenging_rate s.rbc_count o } sol
    with ⟨s2, r⟩
  unfold simulate_hypoxia at h ⊢
  simp only [hres] at h ⊢
  cases r with
  | none => simp at h
  | some rows => simp

/-- C8 amended witness: on a full-grid solver output (3 samples for 3
requested points) the hypoxic run completes and `k_rbc` is restored. -/
theorem hypoxia_restores_k_rbc_witness :
    ((simulate_hypoxia
        (init
          { baseline := 0.2
            peak := 4
            t_peak := 0.5
            half_life := 0.5
            t_max := 1
            points := 3
            egfr := 90
            rbc_count := 4500000
            dose := 30
            additional_doses := []
            formulation := Formulation.immediateRelease })
        0.8
        { success := true
          y0 := [0.2, 0.3, 0.4]
          y1 := [0.1, 0.1, 0.1]
          y2 := [0.04, 0.05, 0.06] }).2).isSome = true ∧
    (simulate_hypoxia
        (init
          { baseline := 0.2
            peak := 4
            t_peak := 0.5
            half_life := 0.5
            t_max := 1
            points := 3
            egfr := 90
            rbc_count := 4500000
            dose := 30
            additional_doses := []
            formulation := Formulation.immediateRelease })
        0.8
        { success := true
          y0 := [0.2, 0.3, 0.4]
          y1 := [0.1, 0.1, 0.1]
          y2 := [0.04, 0.05, 0.06] }).1.k_rbc
      = (init
          { baseline := 0.2
            peak := 4
            t_peak := 0.5
            half_life := 0.5
            t_max := 1
            points := 3
            egfr := 90
            rbc_count := 4500000
            dose := 30
            additional_doses := []
            formulation := Formulation.immediateRelease }).k_rbc :=
  by
  have h :
      ((simulate_hypoxia
          (init
            { baseline := 0.2
              peak := 4
              t_peak := 0.5
              half_life := 0.5
              t_max := 1
              points := 3
              egfr := 90
              rbc_count := 4500000
              dose := 30
              additional_doses := []
              formulation := Formulation.immediateRelease })
          0.8
          { success := true
            y0 := [0.2, 0.3, 0.4]
            y1 := [0.1, 0.1, 0.1]
            y2 := [0.04, 0.05, 0.06] }).2).isSome = true := by
    simp [simulate_hypoxia, simulate, init, linspace_length, calculate_cgmp_length,
      calculate_vasodilation_length, List.length_zipWith, List.length_map]
  exact ⟨h, hypoxia_restores_k_rbc _ _ _ h⟩

lemma getD_mem (l : List ℚ) (i : ℕ) (hi : i < l.length) : l.getD i 0 ∈ l := by
  rw [List.getD_eq_getElem _ _ hi]
  exact List.getElem_mem hi

lemma idxmin_spec (l : List ℚ) (hl : l ≠ []) :
    idxmin l < l.length ∧ l.getD (idxmin l) 0 = pymin l ∧
      (∀ i < l.length, l.getD (idxmin l) 0 ≤ l.getD i 0) ∧
      (∀ i < idxmin l, l.getD (idxmin l) 0 < l.getD i 0) := by
  unfold idxmin
  obtain ⟨h1, h2, h3⟩ := indexOf_spec (pymin l) l (pymin_mem l hl)
  refine ⟨h1, h2, ?_, ?_⟩
  · intro i hi
    rw [h2]
    exact pymin_le l _ (getD_mem l i hi)
  · intro i hi
    rw [h2]
    have hi' : i < l.length := lt_trans hi h1
    have hle : pymin l ≤ l.getD i 0 := pymin_le l _ (getD_mem l i hi')
    exact lt_of_le_of_ne hle (Ne.symm (h3 i hi))

lemma getD_map_pair (f : ℚ × ℚ → ℚ) (l : List (ℚ × ℚ)) (i : ℕ) (hi : i < l.length) :
    (l.map f).getD i 0 = f (l.getD i (0, 0)) := by
  rw [List.getD_eq_getElem _ _ (by simpa using hi), List.getElem_map,
    List.getD_eq_getElem _ _ hi]

/-- The rows of the loaded series from the peak row onward
(`data.iloc[peak_idx:]` in the source, peak row included). -/
def postPeak (data : List (ℚ × ℚ)) : List (ℚ × ℚ) :=
  data.drop (idxmax (data.map Prod.snd))

/-- The half-decay target value `baseline + (peak - baseline) / 2`, with
the baseline defaulting to the last post-peak value. -/
def halfTarget (data : List (ℚ × ℚ)) (baseline? : Option ℚ) : ℚ :=
  let baseline := baseline?.getD (pylast ((postPeak data).map Prod.snd))
  baseline + (pymax (data.map Prod.snd) - baseline) / 2

/-- C7: on every nonempty loaded series, `half_life_analysis` returns the
null sentinel exactly when the post-peak segment (peak row included, as
the source slices it) has fewer than 3 samples; otherwise it returns the
elapsed time from the peak row to the first post-peak row whose value is
nearest `baseline + (peak - baseline) / 2`. -/
theorem half_life_spec (data : List (ℚ × ℚ)) (baseline? : Option ℚ) (hne : data ≠ []) :
    (half_life_analysis data baseline? = none ↔ (postPeak data).length < 3) ∧
    (3 ≤ (postPeak data).length →
      ∃ j, j < (postPeak data).length ∧
        half_life_analysis data baseline? =
          some (((postPeak data).getD j (0, 0)).1 - ((postPeak data).getD 0 (0, 0)).1) ∧
        (∀ i < (postPeak data).length,
          |((postPeak data).getD j (0, 0)).2 - halfTarget data baseline?|
            ≤ |((postPeak data).getD i (0, 0)).2 - halfTarget data baseline?|) ∧
        (∀ i < j,
          |((postPeak data).getD j (0, 0)).2 - halfTarget data baseline?|
            < |((postPeak data).getD i (0, 0)).2 - halfTarget data baseline?|)) := by
  simp only [postPeak, halfTarget, half_life_analysis]
  by_cases hlen : (data.drop (idxmax (data.map Prod.snd))).length < 3
  · rw [if_pos hlen]
    exact ⟨iff_of_true rfl hlen, fun h3 => absurd h3 (by omega)⟩
  · rw [if_neg hlen]
    have h3 : 3 ≤ (data.drop (idxmax (data.map Prod.snd))).length := by omega
    refine ⟨iff_of_false (by simp) hlen, fun _ => ?_⟩
    set post := data.drop (idxmax (data.map Prod.snd)) with hpost
    set half := baseline?.getD (pylast (post.map Prod.snd))
      + (pymax (data.map Prod.snd) - baseline?.getD (pylast (post.map Prod.snd))) / 2
      with hhalf
    set diffs := post.map (fun p => |p.2 - half|) with hdiffs
    have hdne : diffs ≠ [] := by
      have hpos : 0 < diffs.length := by
        rw [hdiffs, List.length_map]
        omega
      exact List.ne_nil_of_length_pos hpos
    obtain ⟨h1, h2, hle, hfirst⟩ := idxmin_spec diffs hdne
    have hdl : diffs.length = post.length := by
      rw [hdiffs, List.length_map]
    refine ⟨idxmin diffs, hdl ▸ h1, ?_, ?_, ?_⟩
    · have ha : pyget (post.map Prod.fst) (idxmin diffs) =
          (post.getD (idxmin diffs) (0, 0)).1 := by
        simp only [pyget]
        exact getD_map_pair Prod.fst post (idxmin diffs) (by omega)
      have hb : pyget (post.map Prod.fst) 0 = (post.getD 0 (0, 0)).1 := by
        simp only [pyget]
        exact getD_map_pair Prod.fst post 0 (by omega)
      rw [ha, hb]
    · intro i hi
      have hdj : diffs.getD (idxmin diffs) 0
          = |(post.getD (idxmin diffs) (0, 0)).2 - half| := by
        rw [hdiffs]
        exact getD_map_pair _ post (idxmin diffs) (by omega)
      have hdi : diffs.getD i 0 = |(post.getD i (0, 0)).2 - half| := by
        rw [hdiffs]
        exact getD_map_pair _ post i (by omega)
      have := hle i (by omega)
      rw [hdj, hdi] at this
      exact this
    · intro i hi
      have hdj : diffs.getD (idxmin diffs) 0
          = |(post.getD (idxmin diffs) (0, 0)).2 - half| := by
        rw [hdiffs]
        exact getD_map_pair _ post (idxmin diffs) (by omega)
      have hi' : i < diffs.length := lt_trans hi h1
      have hdi : diffs.getD i 0 = |(post.getD i (0, 0)).2 - half| := by
        rw [hdiffs]
        exact getD_map_pair _ post i (by omega)
      have := hfirst i hi
      rw [hdj, hdi] at this
      exact this

/-- C7 witness: the concrete series `(0,1), (1,5), (2,3), (3,2), (4,1)`
is nonempty, has 4 post-peak samples, and so returns a non-null
half-life. -/
theorem half_life_spec_witness :
    ([((0 : ℚ), (1 : ℚ)), (1, 5), (2, 3), (3, 2), (4, 1)] : List (ℚ × ℚ)) ≠ [] ∧
    (half_life_analysis [((0 : ℚ), (1 : ℚ)), (1, 5), (2, 3), (3, 2), (4, 1)] none = none ↔
      (postPeak [((0 : ℚ), (1 : ℚ)), (1, 5), (2, 3), (3, 2), (4, 1)]).length < 3) :=
  ⟨by decide, (half_life_spec _ none (by decide)).1⟩

lemma length_flatMap_const {α β : Type} (l : List α) (g : α → List β) (k : ℕ)
    (h : ∀ x ∈ l, (g x).length = k) : (l.flatMap g).length = l.length * k := by
  induction l with
  | nil => simp
  | cons x xs ih =>
      rw [List.flatMap_cons, List.length_append, h x (List.mem_cons_self x xs),
        ih (fun y hy => h y (List.mem_cons_of_mem x hy)), List.length_cons]
      ring

lemma batch_results_length (sim : SimCfg → List ℚ) (d a w b : List ℚ) :
    (d.flatMap (fun dose => a.flatMap (fun age => w.flatMap (fun weight =>
        b.map (fun baseline => mkRecord sim dose age weight baseline))))).length
      = d.length * a.length * w.length * b.length := by
  rw [length_flatMap_const d _ (a.length * (w.length * b.length)) ?_]
  · ring
  · intro dose _
    rw [length_flatMap_const a _ (w.length * b.length) ?_]
    intro age _
    rw [length_flatMap_const w _ b.length ?_]
    intro weight _
    exact List.length_map b _

/-- C9 (amended): `batch_simulate` rejects a request whose Cartesian
combination count exceeds 50 with an error response computed before (and
independently of) any simulation; otherwise, when at least one
combination exists, it produces exactly one record per combination
(`|dose|*|age|*|weight|*|baseline|` records), each record's therapeutic
window equals `100 * |{plasma samples > 1.0}| / |samples|` for that
combination's own simulation, and the summary's `optimal_combinations`
are the top 5 records by therapeutic window: at most five of the
records, sorted descending, and dominating every record left out.  When
some range is empty (zero combinations, which passes the cap check), the
summary group-by fails on the empty frame and an error response is
returned instead. -/
theorem batch_simulate_spec (sim : SimCfg → List ℚ) (req : BatchRequest) :
    (50 < req.dose_range.length * req.age_range.length * req.weight_range.length *
        req.baseline_range.length →
      batch_simulate sim req =
        .error ("Batch size too large: " ++
          toString (req.dose_range.length * req.age_range.length *
            req.weight_range.length * req.baseline_range.length) ++
          " simulations requested, maximum is 50") ∧
      ∀ sim' : SimCfg → List ℚ, batch_simulate sim' req = batch_simulate sim req) ∧
    (req.dose_range.length * req.age_range.length * req.weight_range.length *
        req.baseline_range.length ≤ 50 →
      0 < req.dose_range.length * req.age_range.length * req.weight_range.length *
        req.baseline_range.length →
      ∃ resp : BatchResponse, batch_simulate sim req = .ok resp ∧
        resp.batch_results.length =
          req.dose_range.length * req.age_range.length * req.weight_range.length *
            req.baseline_range.length ∧
        (∀ r ∈ resp.batch_results,
          r.therapeutic_window =
            (((sim (cfgOf r.dose r.age r.weight r.baseline)).countP
                (fun v => decide (1 < v)) : ℚ) /
              ((sim (cfgOf r.dose r.age r.weight r.baseline)).length : ℚ)) * 100) ∧
        resp.summary.optimal_combinations.length = min 5 resp.batch_results.length ∧
        (∀ x ∈ resp.summary.optimal_combinations, x ∈ resp.batch_results) ∧
        resp.summary.optimal_combinations.Pairwise
          (fun x y => y.therapeutic_window ≤ x.therapeutic_window) ∧
        (∀ y ∈ resp.batch_results, y ∉ resp.summary.optimal_combinations →
          ∀ x ∈ resp.summary.optimal_combinations,
            y.therapeutic_window ≤ x.therapeutic_window)) ∧
    (req.dose_range.length * req.age_range.length * req.weight_range.length *
        req.baseline_range.length = 0 →
      batch_simulate sim req = .error "KeyError: dose") := by
  refine ⟨?_, ?_, ?_⟩
  · intro h
    constructor
    · unfold batch_simulate
      rw [if_pos h]
    · intro sim'
      unfold batch_simulate
      rw [if_pos h, if_pos h]
  · intro h h0
    unfold batch_simulate
    rw [if_neg (not_lt.mpr h)]
    set rs := req.dose_range.flatMap (fun dose =>
      req.age_range.flatMap (fun age =>
        req.weight_range.flatMap (fun weight =>
          req.baseline_range.map (fun baseline =>
            mkRecord sim dose age weight baseline)))) with hrs
    have hlen : rs.length = req.dose_range.length * req.age_range.length *
        req.weight_range.length * req.baseline_range.length := by
      rw [hrs]
      exact batch_results_length sim _ _ _ _
    have hcond : ¬ rs.isEmpty = true := by
      intro hcon
      have h0' := h0
      rw [← hlen, List.isEmpty_iff.mp hcon] at h0'
      simp at h0'
    rw [if_neg hcond]
    have hsorted : (rs.mergeSort
        (fun x y => decide (y.therapeutic_window ≤ x.therapeutic_window))).Pairwise
        (fun x y => y.therapeutic_window ≤ x.therapeutic_window) := by
      have hs := @List.sorted_mergeSort BatchRecord
        (fun x y : BatchRecord => decide (y.therapeutic_window ≤ x.therapeutic_window))
        (fun a b c hab hbc => by
          simp only [decide_eq_true_eq] at *
          exact le_trans hbc hab)
        (fun a b => by
          simp only [Bool.or_eq_true, decide_eq_true_eq]
          exact le_total b.therapeutic_window a.therapeutic_window)
        rs
      exact hs.imp (fun hab => of_decide_eq_true hab)
    have hperm := List.mergeSort_perm rs
      (fun x y => decide (y.therapeutic_window ≤ x.therapeutic_window))
    refine ⟨_, rfl, ?_, ?_, ?_, ?_, ?_, ?_⟩
    · exact hlen
    · intro r hr
      rw [hrs] at hr
      obtain ⟨dose, hd, hr⟩ := List.mem_flatMap.mp hr
      obtain ⟨age, ha, hr⟩ := List.mem_flatMap.mp hr
      obtain ⟨weight, hw, hr⟩ := List.mem_flatMap.mp hr
      obtain ⟨baseline, hb, rfl⟩ := List.mem_map.mp hr
      rfl
    · simp only [nlargestWindow, List.length_take, List.length_mergeSort]
    · intro x hx
      simp only [nlargestWindow] at hx
      have hx' := (List.take_sublist 5 _).mem hx
      exact hperm.mem_iff.mp hx'
    · simp only [nlargestWindow]
      exact hsorted.sublist (List.take_sublist 5 _)
    · intro y hy hnot x hx
      simp only [nlargestWindow] at hnot hx
      have hy' : y ∈ rs.mergeSort
          (fun x y => decide (y.therapeutic_window ≤ x.therapeutic_window)) :=
        hperm.mem_iff.mpr hy
      rw [← List.take_append_drop 5 (rs.mergeSort
        (fun x y => decide (y.therapeutic_window ≤ x.therapeutic_window)))] at hy' hsorted
      have hydrop : y ∈ (rs.mergeSort
          (fun x y => decide (y.therapeutic_window ≤ x.therapeutic_window))).drop 5 := by
        rcases List.mem_append.mp hy' with hcase | hcase
        · exact absurd hcase hnot
        · exact hcase
      exact (List.pairwise_append.mp hsorted).2.2 x hx y hydrop
  · intro h0
    unfold batch_simulate
    rw [if_neg (by omega)]
    set rs := req.dose_range.flatMap (fun dose =>
      req.age_range.flatMap (fun age =>
        req.weight_range.flatMap (fun weight =>
          req.baseline_range.map (fun baseline =>
            mkRecord sim dose age weight baseline)))) with hrs
    have hlen : rs.length = 0 := by
      rw [hrs, batch_results_length sim _ _ _ _]
      omega
    rw [if_pos (List.isEmpty_iff.mpr (List.length_eq_zero.mp hlen))]

/-- A concrete simulation oracle for exercising the batch route: every
combination yields the plasma series `[2, 0]` (one sample above the
1.0 µM threshold). -/
def witnessSim : SimCfg → List ℚ := fun _ => [2, 0]

/-- A request with 256 Cartesian combinations (over the 50 cap). -/
def witnessReqBig : BatchRequest :=
  { dose_range := [1, 2, 3, 4]
    age_range := [1, 2, 3, 4]
    weight_range := [1, 2, 3, 4]
    baseline_range := [1, 2, 3, 4] }

/-- A request with 2 Cartesian combinations (under the 50 cap). -/
def witnessReqOk : BatchRequest :=
  { dose_range := [30]
    age_range := [50]
    weight_range := [60, 70]
    baseline_range := [0.2] }

/-- A request with an empty dose range: 0 Cartesian combinations, which
passes the 50 cap. -/
def witnessReqEmpty : BatchRequest :=
  { dose_range := []
    age_range := [50]
    weight_range := [60, 70]
    baseline_range := [0.2] }

/-- C9 counterexample: the empty-dose-range request has 0 combinations,
within the 50 cap, yet the route produces no records and no aggregate
view — the summary group-by fails on the empty, column-less frame and an
error response is returned, refuting the claim that every request within
the cap yields one record per combination and a top-5 aggregate. -/
theorem batch_empty_range_counterexample :
    witnessReqEmpty.dose_range.length * witnessReqEmpty.age_range.length *
        witnessReqEmpty.weight_range.length * witnessReqEmpty.baseline_range.length ≤ 50 ∧
    batch_simulate witnessSim witnessReqEmpty = .error "KeyError: dose" :=
  ⟨by decide, rfl⟩

/-- C9 witness: the 256-combination request is rejected with an error,
the 2-combination request yields exactly 2 records, and the
zero-combination request yields the group-by error. -/
theorem batch_simulate_spec_witness :
    (∃ msg : String, batch_simulate witnessSim witnessReqBig = .error msg) ∧
    (∃ resp : BatchResponse, batch_simulate witnessSim witnessReqOk = .ok resp ∧
      resp.batch_results.length = 2) ∧
    batch_simulate witnessSim witnessReqEmpty = .error "KeyError: dose" := by
  refine ⟨?_, ?_, ?_⟩
  · exact ⟨_, ((batch_simulate_spec witnessSim witnessReqBig).1 (by decide)).1⟩
  · obtain ⟨resp, h1, h2, -⟩ :=
      (batch_simulate_spec witnessSim witnessReqOk).2.1 (by decide) (by decide)
    refine ⟨resp, h1, ?_⟩
    rw [h2]
    decide
  · exact (batch_simulate_spec witnessSim witnessReqEmpty).2.2 (by decide)
